import Mathlib

/-!
Verification development for the tunnel-establishment layer of the `shoes`
forward proxy: a shallow embedding of `shadowsocks_tcp_handler.rs` and
`tcp_client_connector.rs`, with theorems about the Shadowsocks-style
handshake (address exchange and AEAD-2022 padding) and the transport
connector (QUIC endpoint rotation, proxy-vs-direct target selection, and
construction-time transport checks).

Bytes are modelled as `Nat` (with `< 256` bounds where they matter), a
readable stream as the `List Nat` of bytes still to be read, and a writable
stream as the list of write/flush events performed on it.  The AEAD cipher
layer is an out-of-scope collaborator (the wrapped stream transports the
plaintext bytes); its construction parameters are recorded where a claim
depends on them.
-/

set_option autoImplicit false

namespace Shoes

/-- Modelled from the spec: the address part of `crate::address::NetLocation`
(`address.rs` is not among the provided sources) — either a concrete IPv4
address or a hostname pending resolution, the hostname held as its byte
sequence. -/
inductive Address
  | ipv4 (a b c d : Nat)
  | name (host : List Nat)
  deriving DecidableEq

/-- Modelled from the spec: `crate::address::NetLocation`, a destination —
hostname-or-IP plus port, immutable once constructed. -/
structure NetLocation where
  address : Address
  port : Nat
  deriving DecidableEq

/-- Accessor `NetLocation::address().hostname()`: the hostname component, if any. -/
def Address.hostname : Address → Option (List Nat)
  | .ipv4 _ _ _ _ => none
  | .name host => some host

/-- A location that fits the wire encoding: every byte is a byte, the
hostname length fits its one-byte length prefix, and the port fits two
bytes. -/
def ValidLocation : NetLocation → Prop
  | ⟨.ipv4 a b c d, port⟩ => a < 256 ∧ b < 256 ∧ c < 256 ∧ d < 256 ∧ port < 65536
  | ⟨.name host, port⟩ => host.length < 256 ∧ (∀ b ∈ host, b < 256) ∧ port < 65536

instance : (loc : NetLocation) → Decidable (ValidLocation loc)
  | ⟨.ipv4 a b c d, port⟩ =>
      inferInstanceAs (Decidable (a < 256 ∧ b < 256 ∧ c < 256 ∧ d < 256 ∧ port < 65536))
  | ⟨.name host, port⟩ =>
      inferInstanceAs
        (Decidable (host.length < 256 ∧ (∀ b ∈ host, b < 256) ∧ port < 65536))

/-- Big-endian bytes of a value truncated to `u16` (`u16::to_be_bytes`). -/
def u16_be_bytes (n : Nat) : List Nat :=
  [n % 65536 / 256, n % 256]

/-- Modelled from the spec: `socks_handler::write_location_to_vec`
(`socks_handler.rs` is not among the provided sources) — the self-delimiting
address encoding: type tag, variable-length host, fixed-length big-endian
port. -/
def write_location_to_vec (loc : NetLocation) : List Nat :=
  match loc.address with
  | .ipv4 a b c d => 1 :: a :: b :: c :: d :: u16_be_bytes loc.port
  | .name host => 3 :: host.length :: (host ++ u16_be_bytes loc.port)

/-- Modelled from the spec: `socks_handler::read_location` — consumes the
self-delimiting address encoding from the front of the stream; `none` models
an I/O error (truncated or unrecognized header). -/
def read_location : List Nat → Option (NetLocation × List Nat)
  | 1 :: a :: b :: c :: d :: hi :: lo :: rest =>
      some (⟨.ipv4 a b c d, hi * 256 + lo⟩, rest)
  | 3 :: n :: rest =>
      match rest.drop n with
      | hi :: lo :: rest2 => some (⟨.name (rest.take n), hi * 256 + lo⟩, rest2)
      | _ => none
  | _ => none

/-! ## Shadowsocks TCP handler (`shadowsocks_tcp_handler.rs`) -/

/-- Modelled from the spec: construction data of
`timed_salt_checker::TimedSaltChecker` (the replay-salt cache itself is an
out-of-scope collaborator): a trailing time window in seconds. -/
structure TimedSaltChecker where
  window_secs : Nat
  deriving DecidableEq

/-- Constructor `TimedSaltChecker::new(secs)`. -/
def TimedSaltChecker.new (secs : Nat) : TimedSaltChecker := ⟨secs⟩

/-- The key-derivation strategy installed by the handler constructors:
`DefaultKey` (password-based) for legacy AEAD, `Blake3Key` (raw pre-shared
bytes) for AEAD-2022.  The derivation itself is an out-of-scope
collaborator; the inputs are recorded. -/
inductive ShadowsocksKey
  | defaultKey (password : String)
  | blake3Key (key_bytes : List Nat)
  deriving DecidableEq

/-- A cipher as the handler holds it: identified by its configured name (the
algorithm table behind it is an out-of-scope collaborator). -/
structure ShadowsocksCipher where
  name : String
  deriving DecidableEq

/-- Enum `shadowsocks_stream_type::ShadowsocksStreamType`. -/
inductive ShadowsocksStreamType
  | AEAD
  | AEAD2022Server
  | AEAD2022Client
  deriving DecidableEq

/-- Struct `ShadowsocksTcpHandler`: cipher, key, protocol-variant flag and optional
salt checker, all fixed at construction. -/
structure ShadowsocksTcpHandler where
  cipher : ShadowsocksCipher
  key : ShadowsocksKey
  aead2022 : Bool
  salt_checker : Option TimedSaltChecker
  deriving DecidableEq

/-- Constructor `ShadowsocksTcpHandler::new`: the legacy AEAD variant — password-derived
key, no salt checker. -/
def ShadowsocksTcpHandler.new (cipher_name : String) (password : String) :
    ShadowsocksTcpHandler :=
  { cipher := ⟨cipher_name⟩
    key := .defaultKey password
    aead2022 := false
    salt_checker := none }

/-- Constructor `ShadowsocksTcpHandler::new_aead2022`: the AEAD-2022 variant — blake3 key
from raw bytes, salt checker with a 60-second window. -/
def ShadowsocksTcpHandler.new_aead2022 (cipher_name : String)
    (key_bytes : List Nat) : ShadowsocksTcpHandler :=
  { cipher := ⟨cipher_name⟩
    key := .blake3Key key_bytes
    aead2022 := true
    salt_checker := some (TimedSaltChecker.new 60) }

/-- The arguments the handler passes to `ShadowsocksStream::new` (the framed
AEAD stream wrapper, an out-of-scope collaborator whose byte transform is
abstracted away): recorded so that what each wrap receives can be stated. -/
structure ShadowsocksStreamParams where
  stream_type : ShadowsocksStreamType
  key : ShadowsocksKey
  salt_checker : Option TimedSaltChecker
  deriving DecidableEq

/-- The wrap parameters `setup_server_stream` passes to
`ShadowsocksStream::new`. -/
def ShadowsocksTcpHandler.server_wrap_params (h : ShadowsocksTcpHandler) :
    ShadowsocksStreamParams :=
  { stream_type := if h.aead2022 then .AEAD2022Server else .AEAD
    key := h.key
    salt_checker := h.salt_checker }

/-- The wrap parameters `setup_client_stream` passes to
`ShadowsocksStream::new`. -/
def ShadowsocksTcpHandler.client_wrap_params (h : ShadowsocksTcpHandler) :
    ShadowsocksStreamParams :=
  { stream_type := if h.aead2022 then .AEAD2022Client else .AEAD
    key := h.key
    salt_checker := h.salt_checker }

/-- I/O failures the handshake can produce. -/
inductive IOError
  | unexpectedEof
  | invalidData (padding_len : Nat)
  deriving DecidableEq

/-- Enum `option_util::NoneOrOne`: unspecified, explicitly none, or one value. -/
inductive NoneOrOne (α : Type)
  | unspecified
  | nothing
  | one (a : α)
  deriving DecidableEq

/-- Method `NoneOrOne::is_unspecified`. -/
def NoneOrOne.is_unspecified {α : Type} : NoneOrOne α → Bool
  | .unspecified => true
  | _ => false

/-- Method `NoneOrOne::into_option`. -/
def NoneOrOne.into_option {α : Type} : NoneOrOne α → Option α
  | .one a => some a
  | _ => none

/-- The `TcpForward` variant of `tcp_handler::TcpServerSetupResult`, the one
`ShadowsocksTcpHandler` returns; `stream` is the unread remainder of the
wrapped stream. -/
structure TcpServerSetupResult where
  remote_location : NetLocation
  stream : List Nat
  need_initial_flush : Bool
  connection_success_response : Option (List Nat)
  initial_remote_data : Option (List Nat)
  override_proxy_provider : NoneOrOne String
  deriving DecidableEq

/-- Method `AsyncReadExt::read_exact`: `n` bytes from the front of the stream, plus
the remainder; `none` models an I/O error (stream exhausted early). -/
def readExact (n : Nat) (s : List Nat) : Option (List Nat × List Nat) :=
  if n ≤ s.length then some (s.take n, s.drop n) else none

/-- Reading two bytes with `read_exact` followed by `u16::from_be_bytes`. -/
def readU16be : List Nat → Option (Nat × List Nat)
  | hi :: lo :: rest => some (hi * 256 + lo, rest)
  | _ => none

/-- The `if self.aead2022` block of `setup_server_stream`: read a 2-byte
big-endian padding length, fail with `InvalidData` above 900, else read and
discard that many padding bytes; a no-op for the legacy variant. -/
def ShadowsocksTcpHandler.server_read_padding (h : ShadowsocksTcpHandler)
    (s1 : List Nat) : Except IOError (List Nat) :=
  if h.aead2022 then
    match readU16be s1 with
    | none => .error .unexpectedEof
    | some (padding_len, s2) =>
      if padding_len > 900 then
        .error (.invalidData padding_len)
      else if padding_len > 0 then
        match readExact padding_len s2 with
        | none => .error .unexpectedEof
        | some (_, s3) => .ok s3
      else
        .ok s2
  else
    .ok s1

/-- Method `ShadowsocksTcpHandler::setup_server_stream` on the plaintext carried by
the wrapped stream: read the destination, then (AEAD-2022 only) the padding
block, and return the forward result. -/
def ShadowsocksTcpHandler.setup_server_stream (h : ShadowsocksTcpHandler)
    (server_stream : List Nat) : Except IOError TcpServerSetupResult :=
  match read_location server_stream with
  | none => .error .unexpectedEof
  | some (remote_location, s1) =>
    match h.server_read_padding s1 with
    | .error e => .error e
    | .ok stream =>
        .ok { remote_location
              stream
              need_initial_flush := false
              connection_success_response := none
              initial_remote_data := none
              override_proxy_provider := .unspecified }

/-- Generator `rand::thread_rng()` as the handshake consumes it: the value produced by
`gen_range(1..=900)` and the bytes produced by `fill_bytes`, together with
those collaborators' contracts. -/
structure ThreadRng where
  gen_range_1_900 : Nat
  fill_bytes : Nat → List Nat
  gen_range_mem : 1 ≤ gen_range_1_900 ∧ gen_range_1_900 ≤ 900
  fill_bytes_length : ∀ n, (fill_bytes n).length = n

/-- One operation performed on a writable stream. -/
inductive StreamEvent
  | write (data : List Nat)
  | flush
  deriving DecidableEq

/-- Struct `tcp_handler::TcpClientSetupResult`: the wrapped client stream, recorded
as the plaintext write/flush events the setup performed on it. -/
structure TcpClientSetupResult where
  client_stream : List StreamEvent

/-- Method `ShadowsocksTcpHandler::setup_client_stream` on the plaintext side of the
wrapped stream: encode the destination, then (AEAD-2022 only) append the
2-byte big-endian padding length drawn from `[1, 900]` and that many random
bytes; write the whole buffer with one `write_all` and flush. -/
def ShadowsocksTcpHandler.setup_client_stream (h : ShadowsocksTcpHandler)
    (rng : ThreadRng) (remote_location : NetLocation) : TcpClientSetupResult :=
  let location_vec := write_location_to_vec remote_location
  let location_vec :=
    if h.aead2022 then
      let padding_len := rng.gen_range_1_900
      location_vec ++ u16_be_bytes padding_len ++ rng.fill_bytes padding_len
    else
      location_vec
  { client_stream := [.write location_vec, .flush] }

/-- The bytes a sequence of stream events pushes onto the wire, in order. -/
def writtenBytes : List StreamEvent → List Nat
  | [] => []
  | .write d :: rest => d ++ writtenBytes rest
  | .flush :: rest => writtenBytes rest

/-! ## TCP client connector (`tcp_client_connector.rs`) -/

/-- Constant `ALWAYS_RESOLVE_HOSTNAMES: bool = false`. -/
def ALWAYS_RESOLVE_HOSTNAMES : Bool := false

/-- Constant `MAX_QUIC_ENDPOINTS: usize = 32`. -/
def MAX_QUIC_ENDPOINTS : Nat := 32

/-- Modelled from the spec: `config::Transport` (`config.rs` is not among the
provided sources); every variant other than `Tcp` and `Quic` is collapsed
into `other`, which is all the connector's match distinguishes. -/
inductive Transport
  | tcp
  | quic
  | other
  deriving DecidableEq

/-- Modelled from the spec: `config::TcpConfig` — the per-connection
`no_delay` socket option. -/
structure TcpConfig where
  no_delay : Bool
  deriving DecidableEq

/-- Default `TcpConfig::default()`. -/
def TcpConfig.default : TcpConfig := ⟨false⟩

/-- Modelled from the spec: `config::ClientQuicConfig` — TLS verification
mode, ALPN protocol list, and optional SNI hostname override. -/
structure ClientQuicConfig where
  verify : Bool
  alpn_protocols : List String
  sni_hostname : NoneOrOne (List Nat)
  deriving DecidableEq

/-- Default `ClientQuicConfig::default()`. -/
def ClientQuicConfig.default : ClientQuicConfig := ⟨true, [], .unspecified⟩

/-- Modelled from the spec: the configured protocol choice; `direct` means no
overlay protocol handler is built. -/
inductive ConfigProtocol
  | direct
  | proxied (name : String)
  deriving DecidableEq

/-- Method `protocol.is_direct()`. -/
def ConfigProtocol.is_direct : ConfigProtocol → Bool
  | .direct => true
  | .proxied _ => false

/-- Modelled from the spec: `config::ClientConfig`, the already-validated
configuration the connector is built from. -/
structure ClientConfig where
  address : NetLocation
  transport : Transport
  quic_settings : Option ClientQuicConfig
  tcp_settings : Option TcpConfig
  bind_interface : NoneOrOne String
  protocol : ConfigProtocol
  deriving DecidableEq

/-- The client protocol handler built by
`tcp_handler_util::create_tcp_client_handler` (not among the provided
sources): recorded as the protocol and SNI hint it was created from. -/
structure TcpClientHandlerBox where
  protocol : ConfigProtocol
  sni_hint : Option (List Nat)
  deriving DecidableEq

/-- Enum `TransportConfig` of the connector: TCP with its `no_delay` flag, or QUIC
with SNI hostname, the endpoint pool (endpoints recorded by creation index)
and the rotating 8-bit counter (`AtomicU8`, held as its value `< 256`). -/
inductive TransportConfig
  | tcp (no_delay : Bool)
  | quic (sni_hostname : Option (List Nat)) (endpoints : List Nat)
      (next_endpoint_index : Nat)
  deriving DecidableEq

/-- The number of endpoints in a QUIC pool (`none` for a TCP transport). -/
def TransportConfig.quicEndpointCount : TransportConfig → Option Nat
  | .quic _ endpoints _ => some endpoints.length
  | .tcp _ => none

/-- Struct `TcpClientConnector`. -/
structure TcpClientConnector where
  bind_interface : Option String
  location : NetLocation
  transport_config : TransportConfig
  client_handler : Option TcpClientHandlerBox
  deriving DecidableEq

/-- Outcome of a constructor that can `panic!`: the panic message, or the
value returned. -/
inductive PanicOr (α : Type)
  | panicked (msg : String)
  | ok (val : α)
  deriving DecidableEq

/-- Holds exactly when a fallible construction terminated with `Ok(None)`
(returned `None` rather than panicking). -/
def PanicOr.isOkNone {α : Type} : PanicOr (Option α) → Bool
  | .ok none => true
  | _ => false

/-- Constructor `TcpClientConnector::try_from(client_config)`; `num_threads` stands for
the external `get_num_threads()` collaborator.  QUIC builds
`min(num_threads, 32)` endpoints (recorded by creation index `0, 1, …`) and
a zeroed rotation counter; TCP records the `no_delay` flag; any other
transport panics. -/
def TcpClientConnector.try_from (num_threads : Nat)
    (client_config : ClientConfig) : PanicOr (Option TcpClientConnector) :=
  let default_sni_hostname := client_config.address.address.hostname
  let transport_result : PanicOr TransportConfig :=
    match client_config.transport with
    | .quic =>
        let qc := client_config.quic_settings.getD ClientQuicConfig.default
        let sni_hostname :=
          if qc.sni_hostname.is_unspecified then default_sni_hostname
          else qc.sni_hostname.into_option
        let endpoints_len := min num_threads MAX_QUIC_ENDPOINTS
        let endpoints := List.range endpoints_len
        .ok (.quic sni_hostname endpoints 0)
    | .tcp =>
        let tc := client_config.tcp_settings.getD TcpConfig.default
        .ok (.tcp tc.no_delay)
    | .other =>
        .panicked
          "TODO: this is an error, a non-tcp/quic client config was specified for a tcp server"
  match transport_result with
  | .panicked m => .panicked m
  | .ok transport_config =>
      .ok (some
        { bind_interface := client_config.bind_interface.into_option
          location := client_config.address
          transport_config
          client_handler :=
            if client_config.protocol.is_direct then none
            else some
              { protocol := client_config.protocol
                sni_hint := default_sni_hostname } })

/-- A resolved socket address (`std::net::SocketAddr`), abstracted to an
IPv4 quad, port and family flag. -/
structure SocketAddr where
  a : Nat
  b : Nat
  c : Nat
  d : Nat
  port : Nat
  is_ipv6 : Bool
  deriving DecidableEq

/-- Constructor `NetLocation::from_ip_addr`. -/
def NetLocation.from_ip_addr (sa : SocketAddr) : NetLocation :=
  ⟨.ipv4 sa.a sa.b sa.c sa.d, sa.port⟩

/-- ASCII byte sequence of a string literal. -/
def asciiBytes (s : String) : List Nat := s.data.map Char.toNat

/-- The stream `connect` returns, recorded structurally: the raw transport
stream (TCP socket or one QUIC bidirectional stream on a pool endpoint), or
that stream after the client protocol handler wrapped it, carrying the
destination the handler tunnels to. -/
inductive ClientStream
  | tcpStream (addr : SocketAddr) (no_delay : Bool)
  | quicStream (endpoint : Nat) (addr : SocketAddr) (domain : List Nat)
  | handlerWrapped (handler : TcpClientHandlerBox) (inner : ClientStream)
      (remote_location : NetLocation)
  deriving DecidableEq

/-- The transport-level step of `connect` at the already-resolved target
address: opens the TCP socket, or picks a pool endpoint (the sole endpoint
when the pool has size 1, else round-robin via the wrapping 8-bit counter
taken modulo the pool size) and opens one bidirectional stream.  Returns the
stream and the transport config carrying the advanced counter. -/
def TcpClientConnector.transport_connect (self : TcpClientConnector)
    (target_addr : SocketAddr) : ClientStream × TransportConfig :=
  match self.transport_config with
  | .tcp no_delay => (.tcpStream target_addr no_delay, .tcp no_delay)
  | .quic sni_hostname endpoints next_endpoint_index =>
      let domain :=
        match sni_hostname with
        | some s => s
        | none => (self.location.address.hostname).getD (asciiBytes "example.com")
      let picked :=
        if endpoints.length = 1 then
          (endpoints.getD 0 0, next_endpoint_index)
        else
          let endpoint_index := next_endpoint_index
          (endpoints.getD (endpoint_index % endpoints.length) 0,
           (next_endpoint_index + 1) % 256)
      (.quicStream picked.1 target_addr domain,
       .quic sni_hostname endpoints picked.2)

/-- What one `connect` call did: the location handed to
`resolve_single_address`, and the stream returned to the caller. -/
structure ConnectCallResult where
  resolve_input : NetLocation
  stream : ClientStream
  deriving DecidableEq

/-- Method `TcpClientConnector::connect(server_stream, remote_location, resolver)`:
resolve the proxy location when a client handler is configured (the handler
carries `remote_location` inside the tunnel), else `remote_location` itself;
open the transport connection; then either run the handler's client setup
over it or return the transport stream unmodified.  Returns the call record
and the connector state after the call (the advanced QUIC counter). -/
def TcpClientConnector.connect (self : TcpClientConnector)
    (resolver : NetLocation → SocketAddr) (remote_location : NetLocation) :
    ConnectCallResult × TcpClientConnector :=
  let resolve_input :=
    if self.client_handler.isSome then self.location else remote_location
  let target_addr := resolver resolve_input
  let stepped := self.transport_connect target_addr
  let result_stream :=
    match self.client_handler with
    | some ch =>
        let rl :=
          if ALWAYS_RESOLVE_HOSTNAMES then
            match remote_location.address.hostname with
            | some _ => NetLocation.from_ip_addr (resolver remote_location)
            | none => remote_location
          else
            remote_location
        ClientStream.handlerWrapped ch stepped.1 rl
    | none => stepped.1
  ({ resolve_input, stream := result_stream },
   { self with transport_config := stepped.2 })

/-- Runs `n` consecutive `connect` calls with the same arguments, in order,
threading the connector state through. -/
def connectSeq (resolver : NetLocation → SocketAddr)
    (remote_location : NetLocation) :
    TcpClientConnector → Nat → List ConnectCallResult × TcpClientConnector
  | self, 0 => ([], self)
  | self, n + 1 =>
      let step := self.connect resolver remote_location
      let rest := connectSeq resolver remote_location step.2 n
      (step.1 :: rest.1, rest.2)

/-- The QUIC pool endpoint a returned stream runs on, if any (looking
through a protocol-handler wrap). -/
def ClientStream.quicEndpoint : ClientStream → Option Nat
  | .quicStream e _ _ => some e
  | .handlerWrapped _ inner _ => inner.quicEndpoint
  | .tcpStream _ _ => none

/-- The pool endpoints used by `n` consecutive `connect` calls, in call
order. -/
def selectedEndpoints (self : TcpClientConnector)
    (resolver : NetLocation → SocketAddr) (remote_location : NetLocation)
    (n : Nat) : List (Option Nat) :=
  ((connectSeq resolver remote_location self n).1).map
    (fun r => r.stream.quicEndpoint)

/-! ## Shared example values -/

/-- An example concrete destination. -/
def dest0 : NetLocation := ⟨.ipv4 93 184 216 34, 443⟩

/-- An example hostname destination. -/
def destHost : NetLocation := ⟨.name (asciiBytes "example.org"), 443⟩

/-- A concrete rng: `gen_range(1..=900)` yields 1 and `fill_bytes` yields
zero bytes. -/
def rng0 : ThreadRng where
  gen_range_1_900 := 1
  fill_bytes := fun n => List.replicate n 0
  gen_range_mem := by decide
  fill_bytes_length := fun n => by simp

/-- A connector holding a QUIC pool of `n` endpoints with rotation counter
at `c0` and no client handler. -/
def quicPoolConnector (n c0 : Nat) : TcpClientConnector :=
  { bind_interface := none
    location := ⟨.name (asciiBytes "proxy.example"), 8443⟩
    transport_config := .quic none (List.range n) c0
    client_handler := none }

/-- An example resolver. -/
def anyResolver : NetLocation → SocketAddr := fun l => ⟨10, 0, 0, 1, l.port, false⟩

/-- An example client configuration with a QUIC transport. -/
def quicClientConfig0 : ClientConfig :=
  { address := destHost
    transport := .quic
    quic_settings := none
    tcp_settings := none
    bind_interface := .unspecified
    protocol := .direct }

/-- An example client configuration with a transport that is neither TCP nor
QUIC. -/
def otherClientConfig0 : ClientConfig :=
  { address := destHost
    transport := .other
    quic_settings := none
    tcp_settings := none
    bind_interface := .unspecified
    protocol := .direct }

/-! ## Supporting lemmas -/

theorem read_write_location (loc : NetLocation) (h : ValidLocation loc)
    (rest : List Nat) :
    read_location (write_location_to_vec loc ++ rest) = some (loc, rest) := by
  obtain ⟨addr, port⟩ := loc
  cases addr with
  | ipv4 a b c d =>
      obtain ⟨-, -, -, -, hp⟩ := h
      simp only [write_location_to_vec, u16_be_bytes, read_location,
        List.cons_append, List.nil_append]
      refine congrArg some (Prod.ext ?_ rfl)
      refine congrArg (fun p => NetLocation.mk (Address.ipv4 a b c d) p) ?_
      omega
  | name host =>
      obtain ⟨-, -, hp⟩ := h
      simp only [write_location_to_vec, u16_be_bytes, read_location,
        List.cons_append, List.append_assoc, List.nil_append]
      rw [List.drop_left host (port % 65536 / 256 :: port % 256 :: rest),
        List.take_left host (port % 65536 / 256 :: port % 256 :: rest)]
      refine congrArg some (Prod.ext ?_ rfl)
      refine congrArg (fun p => NetLocation.mk (Address.name host) p) ?_
      omega

theorem readU16be_u16 (L : Nat) (hL : L < 65536) (rest : List Nat) :
    readU16be (u16_be_bytes L ++ rest) = some (L, rest) := by
  simp only [u16_be_bytes, List.cons_append, List.nil_append, readU16be]
  refine congrArg some (Prod.ext ?_ rfl)
  omega

theorem readExact_append (pad rest : List Nat) :
    readExact pad.length (pad ++ rest) = some (pad, rest) := by
  simp [readExact, List.take_left, List.drop_left]

/-! ## Claim theorems: Shadowsocks handler -/

/-- C2: for every valid destination `D` and both protocol variants, running
`setup_client_stream` at `D` and then `setup_server_stream` on the bytes the
client pushed (followed by any application data) yields a result whose
`remote_location` is exactly `D`, with the stream positioned at the
application data — independent of cipher and key (`h` is arbitrary). -/
theorem shadowsocks_address_roundtrip (h : ShadowsocksTcpHandler)
    (rng : ThreadRng) (D : NetLocation) (hD : ValidLocation D)
    (appdata : List Nat) :
    h.setup_server_stream
        (writtenBytes (h.setup_client_stream rng D).client_stream ++ appdata)
      = .ok { remote_location := D
              stream := appdata
              need_initial_flush := false
              connection_success_response := none
              initial_remote_data := none
              override_proxy_provider := .unspecified } := by
  cases haead : h.aead2022 with
  | false =>
      have hw : writtenBytes (h.setup_client_stream rng D).client_stream
          = write_location_to_vec D := by
        simp [ShadowsocksTcpHandler.setup_client_stream, haead, writtenBytes]
      rw [hw]
      simp only [ShadowsocksTcpHandler.setup_server_stream,
        read_write_location D hD]
      simp [ShadowsocksTcpHandler.server_read_padding, haead]
  | true =>
      have hw : writtenBytes (h.setup_client_stream rng D).client_stream
            ++ appdata
          = write_location_to_vec D
            ++ (u16_be_bytes rng.gen_range_1_900
                ++ (rng.fill_bytes rng.gen_range_1_900 ++ appdata)) := by
        simp [ShadowsocksTcpHandler.setup_client_stream, haead, writtenBytes,
          List.append_assoc]
      rw [hw]
      have h900 := rng.gen_range_mem
      have hlen := rng.fill_bytes_length rng.gen_range_1_900
      have hpad : h.server_read_padding
            (u16_be_bytes rng.gen_range_1_900
              ++ (rng.fill_bytes rng.gen_range_1_900 ++ appdata))
          = .ok appdata := by
        simp only [ShadowsocksTcpHandler.server_read_padding, haead, if_true,
          readU16be_u16 rng.gen_range_1_900 (by omega)]
        rw [if_neg (by omega), if_pos (by omega)]
        generalize rng.fill_bytes rng.gen_range_1_900 = pad at hlen ⊢
        rw [← hlen, readExact_append]
      simp only [ShadowsocksTcpHandler.setup_server_stream,
        read_write_location D hD, hpad]

/-- C2 witness at the legacy variant, destination `dest0` and application
data `[5, 6]`. -/
theorem shadowsocks_address_roundtrip_witness :
    (ShadowsocksTcpHandler.new "chacha20-ietf-poly1305" "pw").setup_server_stream
        (writtenBytes ((ShadowsocksTcpHandler.new "chacha20-ietf-poly1305"
            "pw").setup_client_stream rng0 dest0).client_stream ++ [5, 6])
      = .ok { remote_location := dest0
              stream := [5, 6]
              need_initial_flush := false
              connection_success_response := none
              initial_remote_data := none
              override_proxy_provider := .unspecified } :=
  shadowsocks_address_roundtrip (ShadowsocksTcpHandler.new
    "chacha20-ietf-poly1305" "pw") rng0 dest0 (by decide) [5, 6]

/-- C3: for the AEAD-2022 variant, after the address the server reads a
2-byte big-endian padding length `L`; if `L > 900` setup fails with
`InvalidData` whatever (even nothing) follows the length bytes; if
`1 ≤ L ≤ 900` it consumes exactly the `L` padding bytes and returns the
stream at the following byte; `L = 0` is accepted with no padding bytes
consumed. -/
theorem aead2022_server_padding_handling (h : ShadowsocksTcpHandler)
    (haead : h.aead2022 = true) (D : NetLocation) (hD : ValidLocation D)
    (L : Nat) (hL : L < 65536) :
    (900 < L → ∀ tail : List Nat,
        h.setup_server_stream
            (write_location_to_vec D ++ (u16_be_bytes L ++ tail))
          = .error (.invalidData L))
    ∧ (∀ padding rest : List Nat, padding.length = L → 1 ≤ L → L ≤ 900 →
        h.setup_server_stream
            (write_location_to_vec D ++ (u16_be_bytes L ++ (padding ++ rest)))
          = .ok { remote_location := D
                  stream := rest
                  need_initial_flush := false
                  connection_success_response := none
                  initial_remote_data := none
                  override_proxy_provider := .unspecified })
    ∧ (∀ rest : List Nat, L = 0 →
        h.setup_server_stream
            (write_location_to_vec D ++ (u16_be_bytes L ++ rest))
          = .ok { remote_location := D
                  stream := rest
                  need_initial_flush := false
                  connection_success_response := none
                  initial_remote_data := none
                  override_proxy_provider := .unspecified }) := by
  refine ⟨fun hgt tail => ?_, fun padding rest hplen h1 h2 => ?_,
    fun rest h0 => ?_⟩
  · have hpad : h.server_read_padding (u16_be_bytes L ++ tail)
        = .error (.invalidData L) := by
      simp only [ShadowsocksTcpHandler.server_read_padding, haead, if_true,
        readU16be_u16 L hL]
      rw [if_pos hgt]
    simp only [ShadowsocksTcpHandler.setup_server_stream,
      read_write_location D hD, hpad]
  · have hpad : h.server_read_padding (u16_be_bytes L ++ (padding ++ rest))
        = .ok rest := by
      simp only [ShadowsocksTcpHandler.server_read_padding, haead, if_true,
        readU16be_u16 L hL]
      rw [if_neg (by omega), if_pos (by omega), ← hplen, readExact_append]
    simp only [ShadowsocksTcpHandler.setup_server_stream,
      read_write_location D hD, hpad]
  · subst h0
    have hpad : h.server_read_padding (u16_be_bytes 0 ++ rest) = .ok rest := by
      simp only [ShadowsocksTcpHandler.server_read_padding, haead, if_true,
        readU16be_u16 0 (by omega)]
      rw [if_neg (by omega), if_neg (by omega)]
    simp only [ShadowsocksTcpHandler.setup_server_stream,
      read_write_location D hD, hpad]

/-- C3 witness at `L = 901` on a concrete AEAD-2022 handler: the declared
length is rejected with `InvalidData` even though no byte follows it, and
the `L = 0` and `1 ≤ L ≤ 900` branches are instantiated vacuously. -/
theorem aead2022_server_padding_handling_witness :
    (900 < 901 → ∀ tail : List Nat,
        (ShadowsocksTcpHandler.new_aead2022 "cipher"
            [1, 2]).setup_server_stream
            (write_location_to_vec dest0 ++ (u16_be_bytes 901 ++ tail))
          = .error (.invalidData 901))
    ∧ (∀ padding rest : List Nat, padding.length = 901 → 1 ≤ 901 → 901 ≤ 900 →
        (ShadowsocksTcpHandler.new_aead2022 "cipher"
            [1, 2]).setup_server_stream
            (write_location_to_vec dest0
              ++ (u16_be_bytes 901 ++ (padding ++ rest)))
          = .ok { remote_location := dest0
                  stream := rest
                  need_initial_flush := false
                  connection_success_response := none
                  initial_remote_data := none
                  override_proxy_provider := .unspecified })
    ∧ (∀ rest : List Nat, 901 = 0 →
        (ShadowsocksTcpHandler.new_aead2022 "cipher"
            [1, 2]).setup_server_stream
            (write_location_to_vec dest0 ++ (u16_be_bytes 901 ++ rest))
          = .ok { remote_location := dest0
                  stream := rest
                  need_initial_flush := false
                  connection_success_response := none
                  initial_remote_data := none
                  override_proxy_provider := .unspecified }) :=
  aead2022_server_padding_handling
    (ShadowsocksTcpHandler.new_aead2022 "cipher" [1, 2]) rfl dest0
    (by decide) 901 (by decide)

/-- C4: for the AEAD-2022 variant, the client writes — immediately after the
encoded destination — a 2-byte big-endian padding length in `[1, 900]`
followed by exactly that many random bytes, the whole buffer as a single
write followed by a flush. -/
theorem aead2022_client_padding_write (h : ShadowsocksTcpHandler)
    (haead : h.aead2022 = true) (rng : ThreadRng) (D : NetLocation) :
    (h.setup_client_stream rng D).client_stream
      = [.write (write_location_to_vec D
            ++ u16_be_bytes rng.gen_range_1_900
            ++ rng.fill_bytes rng.gen_range_1_900), .flush]
    ∧ 1 ≤ rng.gen_range_1_900 ∧ rng.gen_range_1_900 ≤ 900
    ∧ (rng.fill_bytes rng.gen_range_1_900).length = rng.gen_range_1_900 := by
  refine ⟨?_, rng.gen_range_mem.1, rng.gen_range_mem.2,
    rng.fill_bytes_length _⟩
  simp [ShadowsocksTcpHandler.setup_client_stream, haead]

/-- C4 witness at a concrete AEAD-2022 handler, `rng0` and `dest0`. -/
theorem aead2022_client_padding_write_witness :
    ((ShadowsocksTcpHandler.new_aead2022 "cipher"
        [1, 2]).setup_client_stream rng0 dest0).client_stream
      = [.write (write_location_to_vec dest0
            ++ u16_be_bytes rng0.gen_range_1_900
            ++ rng0.fill_bytes rng0.gen_range_1_900), .flush]
    ∧ 1 ≤ rng0.gen_range_1_900 ∧ rng0.gen_range_1_900 ≤ 900
    ∧ (rng0.fill_bytes rng0.gen_range_1_900).length = rng0.gen_range_1_900 :=
  aead2022_client_padding_write
    (ShadowsocksTcpHandler.new_aead2022 "cipher" [1, 2]) rfl rng0 dest0

/-- C5: a handler built by `ShadowsocksTcpHandler::new` (legacy AEAD) writes
only the encoded destination on client setup, and on server setup reads
nothing beyond the address header: whatever follows the address is returned
untouched as the stream. -/
theorem legacy_aead_no_padding (cipher_name password : String)
    (rng : ThreadRng) (D : NetLocation) (hD : ValidLocation D)
    (rest : List Nat) :
    ((ShadowsocksTcpHandler.new cipher_name password).setup_client_stream rng
        D).client_stream
      = [.write (write_location_to_vec D), .flush]
    ∧ (ShadowsocksTcpHandler.new cipher_name password).setup_server_stream
        (write_location_to_vec D ++ rest)
      = .ok { remote_location := D
              stream := rest
              need_initial_flush := false
              connection_success_response := none
              initial_remote_data := none
              override_proxy_provider := .unspecified } := by
  constructor
  · simp [ShadowsocksTcpHandler.setup_client_stream,
      ShadowsocksTcpHandler.new]
  · simp only [ShadowsocksTcpHandler.setup_server_stream,
      read_write_location D hD]
    simp [ShadowsocksTcpHandler.server_read_padding,
      ShadowsocksTcpHandler.new]

/-- C5 witness at a concrete legacy handler, `destHost` and a two-byte
remainder. -/
theorem legacy_aead_no_padding_witness :
    ((ShadowsocksTcpHandler.new "aes-256-gcm" "pw").setup_client_stream rng0
        destHost).client_stream
      = [.write (write_location_to_vec destHost), .flush]
    ∧ (ShadowsocksTcpHandler.new "aes-256-gcm" "pw").setup_server_stream
        (write_location_to_vec destHost ++ [9, 9])
      = .ok { remote_location := destHost
              stream := [9, 9]
              need_initial_flush := false
              connection_success_response := none
              initial_remote_data := none
              override_proxy_provider := .unspecified } :=
  legacy_aead_no_padding "aes-256-gcm" "pw" rng0 destHost (by decide) [9, 9]

/-- C8: whenever `setup_server_stream` succeeds — for either variant — the
result carries `need_initial_flush = false`, no connection-success
acknowledgement payload, no pre-read initial data, and no proxy-provider
override. -/
theorem server_setup_result_fields (h : ShadowsocksTcpHandler)
    (s : List Nat) (r : TcpServerSetupResult)
    (hr : h.setup_server_stream s = .ok r) :
    r.need_initial_flush = false
    ∧ r.connection_success_response = none
    ∧ r.initial_remote_data = none
    ∧ r.override_proxy_provider = .unspecified := by
  unfold ShadowsocksTcpHandler.setup_server_stream at hr
  split at hr
  · exact Except.noConfusion hr
  · split at hr
    · exact Except.noConfusion hr
    · injection hr with hr
      subst hr
      exact ⟨rfl, rfl, rfl, rfl⟩

/-- C8 witness at a concrete legacy handler and stream. -/
theorem server_setup_result_fields_witness :
    TcpServerSetupResult.need_initial_flush
        ⟨dest0, [], false, none, none, .unspecified⟩ = false
    ∧ TcpServerSetupResult.connection_success_response
        ⟨dest0, [], false, none, none, .unspecified⟩ = none
    ∧ TcpServerSetupResult.initial_remote_data
        ⟨dest0, [], false, none, none, .unspecified⟩ = none
    ∧ TcpServerSetupResult.override_proxy_provider
        ⟨dest0, [], false, none, none, .unspecified⟩ = .unspecified :=
  server_setup_result_fields (ShadowsocksTcpHandler.new "c" "p")
    (write_location_to_vec dest0) ⟨dest0, [], false, none, none, .unspecified⟩
    rfl

/-- C9: a handler holds a salt checker exactly when it is the AEAD-2022
variant — the legacy constructor installs none, the AEAD-2022 constructor
always installs one with a 60-second window — and both stream wraps receive
exactly the handler's (immutable) salt checker. -/
theorem salt_checker_iff_aead2022 :
    (∀ cipher_name password : String,
        (ShadowsocksTcpHandler.new cipher_name password).salt_checker = none
        ∧ (ShadowsocksTcpHandler.new cipher_name password).aead2022 = false
        ∧ (ShadowsocksTcpHandler.new cipher_name
            password).server_wrap_params.salt_checker
          = (ShadowsocksTcpHandler.new cipher_name password).salt_checker
        ∧ (ShadowsocksTcpHandler.new cipher_name
            password).client_wrap_params.salt_checker
          = (ShadowsocksTcpHandler.new cipher_name password).salt_checker
        ∧ (ShadowsocksTcpHandler.new cipher_name
            password).salt_checker.isSome
          = (ShadowsocksTcpHandler.new cipher_name password).aead2022)
    ∧ (∀ (cipher_name : String) (key_bytes : List Nat),
        (ShadowsocksTcpHandler.new_aead2022 cipher_name
            key_bytes).salt_checker = some (TimedSaltChecker.new 60)
        ∧ (ShadowsocksTcpHandler.new_aead2022 cipher_name
            key_bytes).aead2022 = true
        ∧ (ShadowsocksTcpHandler.new_aead2022 cipher_name
            key_bytes).server_wrap_params.salt_checker
          = (ShadowsocksTcpHandler.new_aead2022 cipher_name
              key_bytes).salt_checker
        ∧ (ShadowsocksTcpHandler.new_aead2022 cipher_name
            key_bytes).client_wrap_params.salt_checker
          = (ShadowsocksTcpHandler.new_aead2022 cipher_name
              key_bytes).salt_checker
        ∧ (ShadowsocksTcpHandler.new_aead2022 cipher_name
            key_bytes).salt_checker.isSome
          = (ShadowsocksTcpHandler.new_aead2022 cipher_name
              key_bytes).aead2022) :=
  ⟨fun _ _ => ⟨rfl, rfl, rfl, rfl, rfl⟩,
   fun _ _ => ⟨rfl, rfl, rfl, rfl, rfl⟩⟩

/-! ## Supporting lemmas: QUIC endpoint rotation -/

theorem connect_quic_step (bi : Option String) (locn : NetLocation)
    (ch : Option TcpClientHandlerBox) (sni : Option (List Nat)) (N c0 : Nat)
    (resolver : NetLocation → SocketAddr) (loc : NetLocation) (hN : 1 < N) :
    (TcpClientConnector.connect ⟨bi, locn, .quic sni (List.range N) c0, ch⟩
        resolver loc).1.stream.quicEndpoint = some (c0 % N)
    ∧ (TcpClientConnector.connect ⟨bi, locn, .quic sni (List.range N) c0, ch⟩
        resolver loc).2
      = ⟨bi, locn, .quic sni (List.range N) ((c0 + 1) % 256), ch⟩ := by
  have hne : ¬ N = 1 := by omega
  have hget : (List.range N)[c0 % N]?.getD 0 = c0 % N := by
    rw [List.getElem?_range (Nat.mod_lt c0 (by omega))]
    rfl
  cases ch with
  | none =>
      constructor <;>
        simp [TcpClientConnector.connect, TcpClientConnector.transport_connect,
          ClientStream.quicEndpoint, List.length_range, hne, hget]
  | some c =>
      constructor <;>
        simp [TcpClientConnector.connect, TcpClientConnector.transport_connect,
          ClientStream.quicEndpoint, ALWAYS_RESOLVE_HOSTNAMES,
          List.length_range, hne, hget]

theorem selectedEndpoints_formula (resolver : NetLocation → SocketAddr)
    (loc : NetLocation) (sni : Option (List Nat)) (N : Nat) (hN : 1 < N) :
    ∀ (n c0 : Nat), c0 < 256 →
      ∀ (bi : Option String) (locn : NetLocation)
        (ch : Option TcpClientHandlerBox),
      selectedEndpoints ⟨bi, locn, .quic sni (List.range N) c0, ch⟩
          resolver loc n
        = (List.range n).map (fun k => some (((c0 + k) % 256) % N)) := by
  intro n
  induction n with
  | zero =>
      intro c0 _ bi locn ch
      simp [selectedEndpoints, connectSeq]
  | succ m ih =>
      intro c0 hc0 bi locn ch
      have hstep := connect_quic_step bi locn ch sni N c0 resolver loc hN
      have hunfold : selectedEndpoints
            ⟨bi, locn, .quic sni (List.range N) c0, ch⟩ resolver loc (m + 1)
          = (TcpClientConnector.connect
                ⟨bi, locn, .quic sni (List.range N) c0, ch⟩ resolver
                loc).1.stream.quicEndpoint
            :: selectedEndpoints
                (TcpClientConnector.connect
                  ⟨bi, locn, .quic sni (List.range N) c0, ch⟩ resolver loc).2
                resolver loc m := by
        simp [selectedEndpoints, connectSeq]
      rw [hunfold, hstep.1, hstep.2,
        ih ((c0 + 1) % 256) (Nat.mod_lt _ (by omega)) bi locn ch,
        List.range_succ_eq_map, List.map_cons, List.map_map]
      refine List.cons_eq_cons.mpr ⟨?_, ?_⟩
      · simp [Nat.mod_eq_of_lt hc0]
      · have hfun : (fun k => some ((((c0 + 1) % 256 + k) % 256) % N))
            = ((fun k => some (((c0 + k) % 256) % N)) ∘ Nat.succ) := by
          funext k
          simp only [Function.comp_apply]
          rw [Nat.mod_add_mod, show c0 + 1 + k = c0 + Nat.succ k from by omega]
        rw [hfun]

theorem add_mod_inj_on (N c0 k1 k2 : Nat) (h1 : k1 < N) (h2 : k2 < N)
    (heq : (c0 + k1) % N = (c0 + k2) % N) : k1 = k2 := by
  rcases Nat.le_total k1 k2 with hle | hle
  · have hm : Nat.ModEq N (c0 + k1) (c0 + k2) := heq
    have hdvd := (Nat.modEq_iff_dvd' (by omega)).mp hm
    rw [show c0 + k2 - (c0 + k1) = k2 - k1 from by omega] at hdvd
    have h0 := Nat.eq_zero_of_dvd_of_lt hdvd (by omega)
    omega
  · have hm : Nat.ModEq N (c0 + k2) (c0 + k1) := heq.symm
    have hdvd := (Nat.modEq_iff_dvd' (by omega)).mp hm
    rw [show c0 + k1 - (c0 + k2) = k1 - k2 from by omega] at hdvd
    have h0 := Nat.eq_zero_of_dvd_of_lt hdvd (by omega)
    omega

theorem rotation_perm (N c0 : Nat) (hN : 0 < N) :
    List.Perm ((List.range N).map (fun k => (c0 + k) % N)) (List.range N) := by
  have hnodup : ((List.range N).map (fun k => (c0 + k) % N)).Nodup := by
    refine (List.nodup_range N).map_on ?_
    intro k1 hk1 k2 hk2 heq
    exact add_mod_inj_on N c0 k1 k2 (List.mem_range.mp hk1)
      (List.mem_range.mp hk2) heq
  have hsub : ((List.range N).map (fun k => (c0 + k) % N)) ⊆ List.range N := by
    intro x hx
    rw [List.mem_map] at hx
    obtain ⟨k, -, rfl⟩ := hx
    exact List.mem_range.mpr (Nat.mod_lt _ hN)
  exact (hnodup.subperm hsub).perm_of_length_le (by simp)

/-! ## Claim theorems: transport connector -/

/-- C1 counterexample: with a pool of `N = 3` endpoints and the rotation
counter at 254, the next three `connect` calls select endpoints 2, 0 and 0 —
endpoint 0 twice and endpoint 1 never, and not in the claimed order
`(c0 + k) mod N = 2, 0, 1` — because the `AtomicU8` counter wraps modulo 256
between the second and third call. -/
theorem quic_round_robin_counterexample :
    selectedEndpoints (quicPoolConnector 3 254) anyResolver dest0 3
      = [some 2, some 0, some 0]
    ∧ [(254 + 0) % 3, (254 + 1) % 3, (254 + 2) % 3] = [2, 0, 1]
    ∧ ¬ List.Perm [(2 : Nat), 0, 0] (List.range 3) :=
  ⟨by decide, by decide, by decide⟩

/-- C1 (amended): for a QUIC pool of size `N > 1` the `k`-th `connect` call
selects endpoint `((c0 + k) mod 256) mod N`, where `c0 < 256` is the 8-bit
rotation counter before the first call; whenever the counter does not wrap
within the `N` calls (`c0 + N ≤ 256`), `N` consecutive calls select
`(c0 + k) mod N` for `k = 0, …, N - 1` — each of the `N` endpoints exactly
once, in cyclically increasing index order. -/
theorem quic_round_robin (bi : Option String) (locn : NetLocation)
    (ch : Option TcpClientHandlerBox) (sni : Option (List Nat))
    (resolver : NetLocation → SocketAddr) (loc : NetLocation) (N c0 : Nat)
    (hN : 1 < N) (hc0 : c0 < 256) :
    selectedEndpoints ⟨bi, locn, .quic sni (List.range N) c0, ch⟩ resolver
        loc N
      = (List.range N).map (fun k => some (((c0 + k) % 256) % N))
    ∧ (c0 + N ≤ 256 →
        selectedEndpoints ⟨bi, locn, .quic sni (List.range N) c0, ch⟩
            resolver loc N
          = (List.range N).map (fun k => some ((c0 + k) % N))
        ∧ List.Perm ((List.range N).map (fun k => (c0 + k) % N))
            (List.range N)) := by
  have hform := selectedEndpoints_formula resolver loc sni N hN N c0 hc0 bi
    locn ch
  refine ⟨hform, fun hnw => ⟨?_, rotation_perm N c0 (by omega)⟩⟩
  rw [hform]
  refine List.map_congr_left ?_
  intro k hk
  rw [List.mem_range] at hk
  rw [Nat.mod_eq_of_lt (show c0 + k < 256 by omega)]

/-- C1 witness: pool of 4 endpoints, counter at 10 — four calls select
endpoints 2, 3, 0, 1, a permutation of the pool. -/
theorem quic_round_robin_witness :
    selectedEndpoints (quicPoolConnector 4 10) anyResolver dest0 4
      = (List.range 4).map (fun k => some (((10 + k) % 256) % 4))
    ∧ (10 + 4 ≤ 256 →
        selectedEndpoints (quicPoolConnector 4 10) anyResolver dest0 4
          = (List.range 4).map (fun k => some ((10 + k) % 4))
        ∧ List.Perm ((List.range 4).map (fun k => (10 + k) % 4))
            (List.range 4)) :=
  quic_round_robin none ⟨.name (asciiBytes "proxy.example"), 8443⟩ none none
    anyResolver dest0 4 10 (by decide) (by decide)

/-- C6: every `connect` call resolves (and transport-connects to) the
connector's configured proxy location when a client protocol handler is
configured — handing `remoteLocation` to the handler's client setup instead
— and resolves `remoteLocation` itself and returns the transport stream
unmodified when no handler is configured. -/
theorem connect_proxy_vs_direct (self : TcpClientConnector)
    (resolver : NetLocation → SocketAddr) (remote_location : NetLocation) :
    ((self.connect resolver remote_location).1.resolve_input
      = if self.client_handler.isSome then self.location
        else remote_location)
    ∧ ((self.connect resolver remote_location).1.stream
      = match self.client_handler with
        | some ch =>
            .handlerWrapped ch
              (self.transport_connect (resolver self.location)).1
              remote_location
        | none => (self.transport_connect (resolver remote_location)).1) := by
  cases hch : self.client_handler with
  | none =>
      constructor <;> simp [TcpClientConnector.connect, hch]
  | some ch =>
      constructor <;>
        simp [TcpClientConnector.connect, hch, ALWAYS_RESOLVE_HOSTNAMES]

/-- C7: construction panics (fails closed, at construction time) for every
configured transport other than TCP and QUIC, and a QUIC configuration
builds a connector whose endpoint pool has exactly
`min(worker-thread count, 32)` endpoints. -/
theorem try_from_fail_closed (num_threads : Nat) (cfg : ClientConfig) :
    (cfg.transport ≠ .tcp ∧ cfg.transport ≠ .quic →
        TcpClientConnector.try_from num_threads cfg
          = .panicked
              "TODO: this is an error, a non-tcp/quic client config was specified for a tcp server")
    ∧ (cfg.transport = .quic →
        ∃ c : TcpClientConnector,
          TcpClientConnector.try_from num_threads cfg = .ok (some c)
          ∧ c.transport_config.quicEndpointCount
              = some (min num_threads 32)) := by
  obtain ⟨addr, tr, qs, ts, bi2, proto⟩ := cfg
  cases tr with
  | tcp =>
      exact ⟨fun hne => (hne.1 rfl).elim, fun hq => Transport.noConfusion hq⟩
  | quic =>
      refine ⟨fun hne => (hne.2 rfl).elim, fun _ => ?_⟩
      exact ⟨_, rfl, by
        simp [TransportConfig.quicEndpointCount, List.length_range,
          MAX_QUIC_ENDPOINTS]⟩
  | other =>
      exact ⟨fun _ => rfl, fun hq => Transport.noConfusion hq⟩

/-- C7 witness: a concrete non-TCP/QUIC configuration panics at
construction, and a concrete QUIC configuration with 3 worker threads
builds a pool of `min 3 32 = 3` endpoints. -/
theorem try_from_fail_closed_witness :
    TcpClientConnector.try_from 3 otherClientConfig0
      = .panicked
          "TODO: this is an error, a non-tcp/quic client config was specified for a tcp server"
    ∧ ∃ c : TcpClientConnector,
        TcpClientConnector.try_from 3 quicClientConfig0 = .ok (some c)
        ∧ c.transport_config.quicEndpointCount = some (min 3 32) :=
  ⟨(try_from_fail_closed 3 otherClientConfig0).1 (by decide),
   (try_from_fail_closed 3 quicClientConfig0).2 rfl⟩

/-- C10: `try_from` never terminates with `None`: every terminating
execution returns `Some` connector (unsupported transports panic instead),
so a caller's `None` branch is unreachable. -/
theorem try_from_never_returns_none (num_threads : Nat)
    (cfg : ClientConfig) :
    (TcpClientConnector.try_from num_threads cfg).isOkNone = false := by
  obtain ⟨addr, tr, qs, ts, bi2, proto⟩ := cfg
  cases tr <;> rfl

end Shoes
